import Mathlib

/-!
Shallow embedding of the MedRAG system (MED_RAG/ragpipeline.py,
MED_RAG/risk_model.py, MED_RAG/trust_model.py) in Lean 4, together with
theorems settling the specification claims about it.

Modelling conventions:
* Python dicts with a fixed key set become structures; a key that is absent
  on some return path becomes an `Option` field, with `none` meaning the key
  is missing from the returned dict.
* Python floats used only for comparison and elementary arithmetic
  (similarity scores, percentages) are modelled as rationals.
* The external oracles (the vector database `search` and the Gemini
  `generate_content` call) are parameters of the pipeline functions: `search`
  is a total function from query and top_k to a candidate list, and the
  generator returns `Except String String`, the `error` case modelling a
  raised exception with its message.
* The one genuine partial operation on a reachable path,
  `risk_assessment[warnings][0]` in `Medical_RAGPipeline.query`, is modelled
  by returning `Except String _` from `query`, the `error` case modelling an
  uncaught IndexError.
* Oracle invocations are recorded in an explicit event trace so that claims
  of the form "the retrieval / generation oracle is never called" are
  statable.
-/

namespace MedRAG

/-- Lower-case a string character by character; embeds Python query.lower()
on the ASCII keywords the risk model uses. -/
def strLower (s : String) : String :=
  String.mk (s.data.map Char.toLower)

/-- needle matches at the head of haystack; helper for substring search. -/
def leadsWith : List Char → List Char → Bool
  | [], _ => true
  | _ :: _, [] => false
  | a :: as, b :: bs => a == b && leadsWith as bs

/-- needle occurs somewhere in haystack; embeds the Python membership test
keyword in query.lower(). -/
def occursIn (needle : List Char) : List Char → Bool
  | [] => leadsWith needle []
  | c :: cs => leadsWith needle (c :: cs) || occursIn needle cs

/-- Some keyword of kws occurs in the lower-cased query; embeds the Python
idiom any(keyword in query.lower() for keyword in kws). -/
def kwMatch (kws : List String) (query : String) : Bool :=
  kws.any (fun kw => occursIn kw.data (strLower query).data)

/-- Embeds risk_model.py line 25: the emergency keyword list. -/
def emergency_keywords : List String :=
  ["emergency", "urgent", "dying", "overdose", "suicide", "severe pain"]

/-- Embeds risk_model.py line 33: the diagnostic keyword list. -/
def diagnostic_keywords : List String :=
  ["do i have", "am i", "diagnose me", "what is wrong with me"]

/-- Embeds risk_model.py line 39: the treatment keyword list. -/
def treatment_keywords : List String :=
  ["should i take", "how much", "dosage", "can i stop"]

/-- Embeds risk_model.py line 28: the emergency warning text. -/
def emergencyWarning : String :=
  "EMERGENCY: This system is not for emergencies. Call 911 or emergency services."

/-- Embeds risk_model.py line 35: the diagnostic warning text. -/
def diagnosticWarning : String :=
  "WARNING: This system provides information only, not diagnosis."

/-- Embeds risk_model.py line 41: the treatment caution text. -/
def treatmentWarning : String :=
  "CAUTION: Consult healthcare provider for treatment decisions."

/-- The dict returned by RiskManager.check_query_safety: keys safe, warnings,
risk_level. -/
structure RiskAssessment where
  safe : Bool
  warnings : List String
  risk_level : String
deriving Repr, DecidableEq

/-- Embeds RiskManager.check_query_safety (risk_model.py lines 16-44):
start from safe=True, warnings=[], risk_level=low; if an emergency keyword
occurs in query.lower(), set safe=False, append the emergency warning, set
risk_level=critical and return at once; otherwise append the diagnostic
warning and set risk_level=high on a diagnostic keyword match, then append
the treatment caution and set risk_level=medium on a treatment keyword
match. -/
def check_query_safety (query : String) : RiskAssessment :=
  if kwMatch emergency_keywords query then
    { safe := false, warnings := [emergencyWarning], risk_level := "critical" }
  else
    let r0 : RiskAssessment := { safe := true, warnings := [], risk_level := "low" }
    let r1 :=
      if kwMatch diagnostic_keywords query then
        { r0 with warnings := r0.warnings ++ [diagnosticWarning], risk_level := "high" }
      else r0
    if kwMatch treatment_keywords query then
      { r1 with warnings := r1.warnings ++ [treatmentWarning], risk_level := "medium" }
    else r1

/-- A retrieved document: one entry of the dicts returned by
vector_db.search, with the fields the pipeline reads. Similarity scores are
modelled as rationals. -/
structure Document where
  pmid : String
  title : String
  journal : String
  specialty : String
  abstract : String
  publication_date : String
  similarity_score : ℚ
deriving Repr, DecidableEq

/-- Whitespace characters matched by the regex class backslash-s in the
citation pattern (the ASCII set Python uses for these answers). -/
def isPySpace (c : Char) : Bool :=
  c == ' ' || c == '\t' || c == '\n' || c == '\r' || c == '\x0b' || c == '\x0c'

/-- Drop the longest whitespace run at the head; the greedy whitespace star
of the citation regex. -/
def dropSpaces : List Char → List Char
  | [] => []
  | c :: cs => if isPySpace c then dropSpaces cs else c :: cs

/-- Split off the longest digit run at the head; the greedy digit-plus group
of the citation regex. -/
def takeDigits : List Char → List Char × List Char
  | [] => ([], [])
  | c :: cs =>
    if c.isDigit then
      let (ds, rest) := takeDigits cs
      (c :: ds, rest)
    else ([], c :: cs)

/-- The literal head of the citation pattern. -/
def pmidPat : List Char := ['P', 'M', 'I', 'D', ':']

/-- Left-to-right scan for non-overlapping matches of the citation regex
(literal PMID colon, then whitespace star, then a captured digit run),
resuming after each match, exactly as re.findall does. Fuel-indexed so the
recursion is structural; the fuel never runs out when it starts at the
length of the input, since each step consumes at least one character. -/
def scanAux : Nat → List Char → List String
  | 0, _ => []
  | _ + 1, [] => []
  | fuel + 1, c :: cs =>
    if leadsWith pmidPat (c :: cs) then
      match takeDigits (dropSpaces ((c :: cs).drop pmidPat.length)) with
      | ([], _) => scanAux fuel cs
      | (d :: ds, rest) => String.mk (d :: ds) :: scanAux fuel rest
    else scanAux fuel cs

/-- Embeds re.findall applied to the citation pattern on an answer string
(ragpipeline.py line 116 and trust_model.py line 14). -/
def scanPMIDs (answer : String) : List String :=
  scanAux answer.data.length answer.data

/-- The set of distinct PMIDs extracted from an answer; embeds the Python
set built from the findall result, as a first-occurrence deduplicated
list (claims about it only use membership and cardinality, which do not
depend on set iteration order). -/
def citedPMIDs (answer : String) : List String :=
  (scanPMIDs answer).dedup

/-- One value of the citations mapping built by extract_citations. -/
structure Citation where
  pmid : String
  title : String
  journal : String
  publication_date : String
  url : String
deriving Repr, DecidableEq

/-- Embeds Medical_RAGPipeline.extract_citations (ragpipeline.py lines
114-129): for each distinct PMID mentioned in the answer, look up the first
document whose pmid field equals it; on a hit add a Citation entry keyed by
the PMID, on a miss add nothing. The mapping is modelled as an association
list. -/
def extract_citations (answer : String) (documents : List Document) :
    List (String × Citation) :=
  (citedPMIDs answer).filterMap (fun pmid =>
    match documents.find? (fun d => d.pmid == pmid) with
    | some doc =>
      some (pmid,
        { pmid := pmid, title := doc.title, journal := doc.journal,
          publication_date := doc.publication_date,
          url := "https://pubmed.ncbi.nlm.nih.gov/" ++ pmid ++ "/" })
    | none => none)

/-- The dict returned by TrustworthinessVerifier.verify_citations. -/
structure CitationVerification where
  valid : Bool
  total_citations : Nat
  valid_citations : Nat
  invalid_citations : List String
  uncited_sources : List String
  citation_accuracy : ℚ
deriving Repr, DecidableEq

/-- The set of distinct source pmids of a document list; embeds the Python
set comprehension in trust_model.py line 17. -/
def sourcePMIDs (documents : List Document) : List String :=
  (documents.map (fun d => d.pmid)).dedup

/-- Embeds TrustworthinessVerifier.verify_citations (trust_model.py lines
10-31): extract the cited PMID set from the answer and the source PMID set
from the documents; invalid citations are the cited minus the sources,
uncited sources the sources minus the cited; citation_accuracy is
valid/total*100, and 0 when nothing was cited. -/
def verify_citations (answer : String) (documents : List Document) :
    CitationVerification :=
  let cited := citedPMIDs answer
  let source := sourcePMIDs documents
  let invalid := cited.filter (fun p => !(source.contains p))
  let validCited := cited.filter (fun p => source.contains p)
  { valid := invalid.length == 0,
    total_citations := cited.length,
    valid_citations := validCited.length,
    invalid_citations := invalid,
    uncited_sources := source.filter (fun p => !(cited.contains p)),
    citation_accuracy :=
      if cited.length ≠ 0 then
        (validCited.length : ℚ) / (cited.length : ℚ) * 100
      else 0 }

/-- The configuration fields of Medical_RAGPipeline that the query path
reads (ragpipeline.py lines 24-25). -/
structure PipelineConfig where
  top_k : Nat
  similarity_threshold : ℚ
deriving Repr, DecidableEq

/-- The mutable statistics the pipeline owns: query_count, created as 0 at
construction (ragpipeline.py line 35). -/
structure PipelineState where
  query_count : Nat
deriving Repr, DecidableEq

/-- One oracle invocation recorded in the trace of a query. -/
inductive Event where
  | retrievalCall : Event
  | generationCall : Event
deriving Repr, DecidableEq

/-- Embeds Medical_RAGPipeline.retrieve_documents (ragpipeline.py lines
60-63) given the candidate list the vector_db.search oracle returned: keep
the candidates whose similarity_score is at least the threshold, in oracle
order. -/
def retrieve_documents (cfg : PipelineConfig) (results : List Document) :
    List Document :=
  results.filter (fun r => decide (cfg.similarity_threshold ≤ r.similarity_score))

/-- The fixed no-literature answer (ragpipeline.py lines 67 and 164). -/
def noLiteratureMsg : String := "No relevant medical literature found."

/-- The per-document block of the context string (ragpipeline.py lines
71-81). -/
def docBlock (i : Nat) (doc : Document) : String :=
  "\n[Document " ++ toString i ++ "]\nPMID: " ++ doc.pmid ++
  "\nTitle: " ++ doc.title ++ "\nJournal: " ++ doc.journal ++
  "\nSpecialty: " ++ doc.specialty ++ "\n\nAbstract:\n" ++ doc.abstract ++
  "\n\n---"

/-- Embeds Medical_RAGPipeline.format_context (ragpipeline.py lines 65-83):
the no-literature message on an empty list, otherwise the 1-indexed document
blocks joined by newlines. -/
def format_context (documents : List Document) : String :=
  if documents.isEmpty then noLiteratureMsg
  else String.intercalate "\n" (documents.enum.map (fun p => docBlock (p.1 + 1) p.2))

/-- Embeds Medical_RAGPipeline.create_prompt (ragpipeline.py lines 85-102). -/
def create_prompt (query context : String) : String :=
  "You are a medical AI assistant helping healthcare professionals. Provide accurate, evidence-based answers with proper citations.\n\nMEDICAL LITERATURE:\n" ++
  context ++ "\n\nQUESTION: " ++ query ++
  "\n\nINSTRUCTIONS:\n1. Answer based ONLY on the provided literature\n2. Cite sources using [PMID: xxxxx] format\n3. If information is insufficient, state this clearly\n4. Use professional medical language\n5. Highlight any conflicting findings\n\nANSWER:"

/-- Embeds Medical_RAGPipeline.generate_answer (ragpipeline.py lines
104-112): build the prompt and call the generation oracle; a raised error e
is caught and turned into the text Error generating answer: e. -/
def generate_answer (gen : String → Except String String)
    (query context : String) : String :=
  match gen (create_prompt query context) with
  | Except.ok text => text
  | Except.error e => "Error generating answer: " ++ e

/-- The dict returned by Medical_RAGPipeline.query. The three reachable
return sites build dicts with different key sets, so the keys that are
absent on some path are Option fields, none meaning the key is missing from
the returned dict. The structurally complete return at ragpipeline.py lines
225-237 sits after the unconditional return at line 198 and is dead code,
so no reachable path produces it. -/
structure QueryResult where
  question : String
  answer : String
  citations : List (String × Citation)
  sources : List Document
  num_sources : Option Nat
  cost : Option ℚ
  risk_level : Option String
  citation_accuracy : Option ℚ
  transparency_score : Option ℚ
  safe : Option Bool
deriving Repr, DecidableEq

/-- Embeds Medical_RAGPipeline.query (ragpipeline.py lines 131-205; lines
207-237 are unreachable dead code after the return at line 198, and the
print-only calls, including validate_retrieval whose result is only
printed, are omitted). The search oracle takes the question and top_k; the
generation oracle takes the prompt. Returns the result dict, the updated
state and the trace of oracle calls; the error case models the IndexError
that warnings[0] would raise on an empty warnings list. -/
def query (cfg : PipelineConfig) (search : String → Nat → List Document)
    (gen : String → Except String String) (st : PipelineState)
    (question : String) :
    Except String (QueryResult × PipelineState × List Event) :=
  let risk := check_query_safety question
  if risk.safe = false then
    match risk.warnings with
    | [] => Except.error "IndexError: list index out of range"
    | w :: _ =>
      Except.ok
        ({ question := question, answer := w, citations := [], sources := [],
           num_sources := none, cost := none, risk_level := some "critical",
           citation_accuracy := none, transparency_score := none,
           safe := some false },
         st, [])
  else
    let documents := retrieve_documents cfg (search question cfg.top_k)
    if documents.isEmpty then
      Except.ok
        ({ question := question, answer := noLiteratureMsg, citations := [],
           sources := [], num_sources := some 0, cost := some 0,
           risk_level := none, citation_accuracy := none,
           transparency_score := none, safe := none },
         st, [Event.retrievalCall])
    else
      let context := format_context documents
      let answer := generate_answer gen question context
      let citations := extract_citations answer documents
      Except.ok
        ({ question := question, answer := answer, citations := citations,
           sources := documents, num_sources := some documents.length,
           cost := some 0, risk_level := none, citation_accuracy := none,
           transparency_score := none, safe := none },
         { st with query_count := st.query_count + 1 },
         [Event.retrievalCall, Event.generationCall])

/-- The dict returned by Medical_RAGPipeline.get_statistics. -/
structure Statistics where
  total_queries : Nat
  total_cost : ℚ
  avg_cost_per_query : ℚ
deriving Repr, DecidableEq

/-- Embeds Medical_RAGPipeline.get_statistics (ragpipeline.py lines
258-263). -/
def get_statistics (st : PipelineState) : Statistics :=
  { total_queries := st.query_count, total_cost := 0, avg_cost_per_query := 0 }

/-- A concrete configuration used by the concrete-input theorems: the
default top_k=3 and similarity_threshold=0.5 of the pipeline constructor. -/
def cfgEx : PipelineConfig := { top_k := 3, similarity_threshold := mkRat 1 2 }

/-- A concrete document well above the similarity threshold. -/
def docHi : Document :=
  { pmid := "11111", title := "Metformin glycemic control study",
    journal := "J Endocrinol", specialty := "Endocrinology",
    abstract := "Metformin lowers HbA1c.", publication_date := "2024-03-01",
    similarity_score := mkRat 9 10 }

/-- A concrete document whose similarity score exactly equals the
threshold. -/
def docEq : Document :=
  { pmid := "22222", title := "Metformin dosing review",
    journal := "J Endocrinol", specialty := "Endocrinology",
    abstract := "Dosing overview.", publication_date := "2023-06-01",
    similarity_score := mkRat 1 2 }

/-- A concrete document below the similarity threshold. -/
def docLo : Document :=
  { pmid := "33333", title := "Unrelated cardiology report",
    journal := "J Cardiol", specialty := "Cardiology",
    abstract := "Unrelated content.", publication_date := "2020-01-01",
    similarity_score := mkRat 1 4 }

/-- A concrete retrieval oracle returning three candidates regardless of the
query. -/
def searchEx : String → Nat → List Document := fun _ _ => [docHi, docEq, docLo]

/-- A concrete retrieval oracle returning no candidates. -/
def searchNone : String → Nat → List Document := fun _ _ => []

/-- A concrete generation oracle that succeeds with an answer citing
docHi. -/
def genOkEx : String → Except String String :=
  fun _ => Except.ok "Based on PMID: 11111, metformin lowers HbA1c."

/-- A concrete generation oracle that always raises. -/
def genErrEx : String → Except String String :=
  fun _ => Except.error "quota exceeded"

/-- Helper: on a query with no emergency keyword, every branch of
check_query_safety leaves safe at its initial True. -/
theorem check_safe_of_no_emergency (q : String)
    (h : kwMatch emergency_keywords q = false) :
    (check_query_safety q).safe = true := by
  simp only [check_query_safety, h, Bool.false_eq_true, if_false]
  split <;> split <;> rfl

/-- Helper: the safe field is False exactly on emergency-keyword queries. -/
theorem check_safe_false_iff (q : String) :
    (check_query_safety q).safe = false ↔ kwMatch emergency_keywords q = true := by
  by_cases h : kwMatch emergency_keywords q = true
  · simp [check_query_safety, h]
  · have h0 : kwMatch emergency_keywords q = false := by
      cases hv : kwMatch emergency_keywords q
      · rfl
      · exact absurd hv h
    simp [check_safe_of_no_emergency q h0, h0]

/-- C2: a query containing an emergency keyword (case-insensitively) makes
check_query_safety return safe=False, risk_level=critical and exactly the
one mandatory emergency warning, with no diagnostic or treatment
classification appended; and on such a query the orchestrator returns the
blocked result with empty citations and sources and an empty oracle-call
trace, so neither the retrieval oracle nor the generation oracle is
invoked, and the state is unchanged. -/
theorem emergency_query_blocks_pipeline (cfg : PipelineConfig)
    (search : String → Nat → List Document)
    (gen : String → Except String String) (st : PipelineState)
    (question : String) (h : kwMatch emergency_keywords question = true) :
    check_query_safety question =
      { safe := false, warnings := [emergencyWarning], risk_level := "critical" }
    ∧ query cfg search gen st question =
      Except.ok
        ({ question := question, answer := emergencyWarning, citations := [],
           sources := [], num_sources := none, cost := none,
           risk_level := some "critical", citation_accuracy := none,
           transparency_score := none, safe := some false },
         st, []) := by
  have hc : check_query_safety question =
      { safe := false, warnings := [emergencyWarning], risk_level := "critical" } := by
    simp [check_query_safety, h]
  exact ⟨hc, by simp [query, hc]⟩

/-- Witness for C2 at the concrete query containing the emergency keyword
overdose. -/
theorem emergency_query_blocks_pipeline_witness :
    check_query_safety "overdose risk of insulin" =
      { safe := false, warnings := [emergencyWarning], risk_level := "critical" }
    ∧ query cfgEx searchEx genOkEx { query_count := 0 } "overdose risk of insulin" =
      Except.ok
        ({ question := "overdose risk of insulin", answer := emergencyWarning,
           citations := [], sources := [], num_sources := none, cost := none,
           risk_level := some "critical", citation_accuracy := none,
           transparency_score := none, safe := some false },
         { query_count := 0 }, []) :=
  emergency_query_blocks_pipeline cfgEx searchEx genOkEx { query_count := 0 }
    "overdose risk of insulin" (by decide)

/-- C3: the retrieval filter returns exactly the subsequence of the oracle
candidates whose similarity score is at least the threshold: the result is
a sublist of the candidate list (oracle order preserved, no re-sorting), a
document belongs to it exactly when it is a candidate with score at least
the threshold, and a candidate whose score exactly equals the threshold is
retained. -/
theorem retrieve_documents_filter_spec (cfg : PipelineConfig)
    (results : List Document) :
    List.Sublist (retrieve_documents cfg results) results
    ∧ (∀ d : Document, d ∈ retrieve_documents cfg results ↔
        d ∈ results ∧ cfg.similarity_threshold ≤ d.similarity_score)
    ∧ ∀ d ∈ results, d.similarity_score = cfg.similarity_threshold →
        d ∈ retrieve_documents cfg results := by
  refine ⟨List.filter_sublist results, fun d => ?_, fun d hd he => ?_⟩
  · simp [retrieve_documents, List.mem_filter]
  · simp [retrieve_documents, List.mem_filter, hd, he]

/-- Witness for C3 at the three concrete candidates: the filter keeps the
boundary document docEq, whose score equals the threshold. -/
theorem retrieve_documents_filter_spec_witness :
    List.Sublist (retrieve_documents cfgEx [docHi, docEq, docLo])
      [docHi, docEq, docLo]
    ∧ docEq ∈ retrieve_documents cfgEx [docHi, docEq, docLo] :=
  ⟨(retrieve_documents_filter_spec cfgEx [docHi, docEq, docLo]).1,
   (retrieve_documents_filter_spec cfgEx [docHi, docEq, docLo]).2.2 docEq
     (by simp) (by decide)⟩

/-- C6: on a query with no emergency keyword, if both a diagnostic and a
treatment phrase match then check_query_safety returns both warnings with
the diagnostic one appended first, risk_level=medium because the treatment
tier is evaluated last and overwrites the diagnostic tier, and safe=True;
and on a treatment-only match it returns just the treatment caution with
risk_level=medium and safe=True. -/
theorem tier_order_and_treatment_tier (q : String)
    (hne : kwMatch emergency_keywords q = false) :
    (kwMatch diagnostic_keywords q = true →
      kwMatch treatment_keywords q = true →
      check_query_safety q =
        { safe := true, warnings := [diagnosticWarning, treatmentWarning],
          risk_level := "medium" })
    ∧ (kwMatch diagnostic_keywords q = false →
      kwMatch treatment_keywords q = true →
      check_query_safety q =
        { safe := true, warnings := [treatmentWarning],
          risk_level := "medium" }) := by
  constructor <;> intro h1 h2 <;> simp [check_query_safety, hne, h1, h2]

/-- Witness for C6: a query matching both a diagnostic and a treatment
phrase gets both warnings and the medium tier, and the concrete
dosage-for-metformin query matches only the treatment tier. -/
theorem tier_order_and_treatment_tier_witness :
    check_query_safety "do i have to lower the dosage" =
      { safe := true, warnings := [diagnosticWarning, treatmentWarning],
        risk_level := "medium" }
    ∧ check_query_safety "What is the dosage for metformin?" =
      { safe := true, warnings := [treatmentWarning], risk_level := "medium" } :=
  ⟨(tier_order_and_treatment_tier "do i have to lower the dosage"
      (by decide)).1 (by decide) (by decide),
   (tier_order_and_treatment_tier "What is the dosage for metformin?"
      (by decide)).2 (by decide) (by decide)⟩

/-- C8: if the generation oracle raises with message e on the prompt built
for the given question and context, generate_answer does not propagate the
failure but returns the text Error generating answer: e. -/
theorem generate_answer_catches_errors (gen : String → Except String String)
    (q ctx e : String) (h : gen (create_prompt q ctx) = Except.error e) :
    generate_answer gen q ctx = "Error generating answer: " ++ e := by
  simp [generate_answer, h]

/-- Witness for C8 at the always-raising concrete oracle. -/
theorem generate_answer_catches_errors_witness :
    generate_answer genErrEx "q" "ctx" =
      "Error generating answer: " ++ "quota exceeded" :=
  generate_answer_catches_errors genErrEx "q" "ctx" "quota exceeded" rfl

/-- C10: whenever check_query_safety reports safe=False its warnings list is
non-empty (the critical branch appends exactly one warning before
returning), and consequently the orchestrator's read of the first warning
on the blocked path cannot fail: for every oracle behaviour the query
operation returns a value rather than the IndexError error case. -/
theorem unsafe_query_has_warning (q : String)
    (h : (check_query_safety q).safe = false) :
    (check_query_safety q).warnings ≠ []
    ∧ ∀ (cfg : PipelineConfig) (search : String → Nat → List Document)
        (gen : String → Except String String) (st : PipelineState),
        ∃ out, query cfg search gen st q = Except.ok out := by
  have hk : kwMatch emergency_keywords q = true := (check_safe_false_iff q).mp h
  have hc : check_query_safety q =
      { safe := false, warnings := [emergencyWarning], risk_level := "critical" } := by
    simp [check_query_safety, hk]
  refine ⟨by simp [hc], fun cfg search gen st => ?_⟩
  exact ⟨({ question := q, answer := emergencyWarning, citations := [],
            sources := [], num_sources := none, cost := none,
            risk_level := some "critical", citation_accuracy := none,
            transparency_score := none, safe := some false }, st, []),
         by simp [query, hc]⟩

/-- Witness for C10 at a concrete emergency query. -/
theorem unsafe_query_has_warning_witness :
    (check_query_safety "urgent chest pain advice").warnings ≠ []
    ∧ ∀ (cfg : PipelineConfig) (search : String → Nat → List Document)
        (gen : String → Except String String) (st : PipelineState),
        ∃ out, query cfg search gen st "urgent chest pain advice" = Except.ok out :=
  unsafe_query_has_warning "urgent chest pain advice" (by decide)

/-- C7: when the query is safe but nothing passes the similarity filter,
query returns the fixed no-literature answer with empty citations, empty
sources and num_sources=0, the state is unchanged, and the trace contains
only the retrieval call, so the generation oracle is never invoked for that
query. -/
theorem empty_retrieval_short_circuits (cfg : PipelineConfig)
    (search : String → Nat → List Document)
    (gen : String → Except String String) (st : PipelineState) (q : String)
    (hsafe : (check_query_safety q).safe = true)
    (hempty : retrieve_documents cfg (search q cfg.top_k) = []) :
    query cfg search gen st q =
      Except.ok
        ({ question := q, answer := noLiteratureMsg, citations := [],
           sources := [], num_sources := some 0, cost := some 0,
           risk_level := none, citation_accuracy := none,
           transparency_score := none, safe := none },
         st, [Event.retrievalCall]) := by
  simp [query, hsafe, hempty]

/-- Witness for C7 at a safe concrete query and a retrieval oracle that
returns no candidates. -/
theorem empty_retrieval_short_circuits_witness :
    query cfgEx searchNone genOkEx { query_count := 5 } "metformin mechanism" =
      Except.ok
        ({ question := "metformin mechanism", answer := noLiteratureMsg,
           citations := [], sources := [], num_sources := some 0,
           cost := some 0, risk_level := none, citation_accuracy := none,
           transparency_score := none, safe := none },
         { query_count := 5 }, [Event.retrievalCall]) :=
  empty_retrieval_short_circuits cfgEx searchNone genOkEx { query_count := 5 }
    "metformin mechanism" (by decide) rfl

/-- Helper: a pmid is in the source pmid set exactly when some document
carries it. -/
theorem mem_sourcePMIDs (documents : List Document) (p : String) :
    p ∈ sourcePMIDs documents ↔ ∃ d ∈ documents, d.pmid = p := by
  simp [sourcePMIDs, List.mem_dedup]

/-- C4: every key of the citations mapping built by extract_citations is the
pmid of some input document (exact string equality); an extracted PMID with
no matching document is absent from the mapping; and verify_citations on the
same answer and documents reports exactly those unmatched extracted PMIDs in
invalid_citations. -/
theorem citation_keys_invariant (answer : String) (documents : List Document) :
    (∀ p ∈ (extract_citations answer documents).map Prod.fst,
      ∃ d ∈ documents, d.pmid = p)
    ∧ (∀ p ∈ citedPMIDs answer, (∀ d ∈ documents, d.pmid ≠ p) →
      p ∉ (extract_citations answer documents).map Prod.fst)
    ∧ ∀ p, p ∈ (verify_citations answer documents).invalid_citations ↔
      p ∈ citedPMIDs answer ∧ ∀ d ∈ documents, d.pmid ≠ p := by
  have keyOf : ∀ p ∈ (extract_citations answer documents).map Prod.fst,
      ∃ d ∈ documents, d.pmid = p := by
    intro p hp
    simp only [extract_citations, List.mem_map, List.mem_filterMap] at hp
    obtain ⟨⟨p1, c⟩, ⟨q, hq, hf⟩, hfst⟩ := hp
    cases hfind : documents.find? (fun d => d.pmid == q) with
    | none => rw [hfind] at hf; exact absurd hf (by simp)
    | some doc =>
      rw [hfind] at hf
      simp only [Option.some.injEq, Prod.mk.injEq] at hf
      have hdoc : doc ∈ documents := List.mem_of_find?_eq_some hfind
      have hpm : doc.pmid = q := by
        have := List.find?_some hfind
        simpa using this
      exact ⟨doc, hdoc, by rw [hpm, hf.1]; simpa using hfst⟩
  refine ⟨keyOf, ?_, ?_⟩
  · intro p _ hnone hp
    obtain ⟨d, hd, hdp⟩ := keyOf p hp
    exact hnone d hd hdp
  · intro p
    constructor
    · intro hp
      simp only [verify_citations] at hp
      rw [List.mem_filter] at hp
      obtain ⟨hpc, hnc⟩ := hp
      refine ⟨hpc, ?_⟩
      intro d hd hdp
      have hfalse : (sourcePMIDs documents).contains p = false := by
        simpa using hnc
      have hmem : p ∈ sourcePMIDs documents :=
        (mem_sourcePMIDs documents p).mpr ⟨d, hd, hdp⟩
      rw [List.contains, List.elem_eq_mem, decide_eq_false_iff_not] at hfalse
      exact hfalse hmem
    · rintro ⟨hpc, hno⟩
      simp only [verify_citations]
      rw [List.mem_filter]
      refine ⟨hpc, ?_⟩
      have hnot : p ∉ sourcePMIDs documents := by
        rw [mem_sourcePMIDs]
        rintro ⟨d, hd, hdp⟩
        exact hno d hd hdp
      simp [List.contains, List.elem_eq_mem, hnot]

/-- Witness for C4 at a concrete answer citing one matching and one
unmatched PMID: the mapping keeps only the matching key and verification
reports the unmatched one. -/
theorem citation_keys_invariant_witness :
    (∃ d ∈ [docHi, docEq], d.pmid = "11111")
    ∧ "99999" ∉ (extract_citations "See PMID: 11111 and PMID: 99999."
        [docHi, docEq]).map Prod.fst
    ∧ ("99999" ∈ (verify_citations "See PMID: 11111 and PMID: 99999."
        [docHi, docEq]).invalid_citations ↔
       "99999" ∈ citedPMIDs "See PMID: 11111 and PMID: 99999."
       ∧ ∀ d ∈ [docHi, docEq], d.pmid ≠ "99999") :=
  ⟨(citation_keys_invariant "See PMID: 11111 and PMID: 99999."
      [docHi, docEq]).1 "11111" (by decide),
   (citation_keys_invariant "See PMID: 11111 and PMID: 99999."
      [docHi, docEq]).2.1 "99999" (by decide) (by decide),
   (citation_keys_invariant "See PMID: 11111 and PMID: 99999."
      [docHi, docEq]).2.2 "99999"⟩

/-- C5: verify_citations computes citation_accuracy as
valid_citations / total_citations * 100 whenever at least one PMID marker
was extracted from the answer, as 0 when none was extracted regardless of
the documents, and the value always lies between 0 and 100. -/
theorem citation_accuracy_formula (answer : String) (documents : List Document) :
    (scanPMIDs answer ≠ [] →
      (verify_citations answer documents).citation_accuracy =
        ((verify_citations answer documents).valid_citations : ℚ) /
        ((verify_citations answer documents).total_citations : ℚ) * 100)
    ∧ (scanPMIDs answer = [] →
      (verify_citations answer documents).citation_accuracy = 0)
    ∧ 0 ≤ (verify_citations answer documents).citation_accuracy
    ∧ (verify_citations answer documents).citation_accuracy ≤ 100 := by
  have hacc : (verify_citations answer documents).citation_accuracy =
      if (citedPMIDs answer).length ≠ 0 then
        (((citedPMIDs answer).filter
            (fun p => (sourcePMIDs documents).contains p)).length : ℚ) /
          ((citedPMIDs answer).length : ℚ) * 100
      else 0 := rfl
  have htot : (verify_citations answer documents).total_citations =
      (citedPMIDs answer).length := rfl
  have hval : (verify_citations answer documents).valid_citations =
      ((citedPMIDs answer).filter
        (fun p => (sourcePMIDs documents).contains p)).length := rfl
  have hvt : ((citedPMIDs answer).filter
      (fun p => (sourcePMIDs documents).contains p)).length ≤
      (citedPMIDs answer).length := List.length_filter_le _ _
  refine ⟨?_, ?_, ?_, ?_⟩
  · intro h
    have htne : (citedPMIDs answer).length ≠ 0 := by
      simpa [citedPMIDs, List.length_eq_zero, List.dedup_eq_nil] using h
    rw [hacc, htot, hval, if_pos htne]
  · intro h
    have ht0 : (citedPMIDs answer).length = 0 := by
      simp [citedPMIDs, h]
    rw [hacc, if_neg (by simp [ht0])]
  · rw [hacc]
    split
    · positivity
    · exact le_refl 0
  · rw [hacc]
    split
    · rename_i htne
      have htpos : (0 : ℚ) < ((citedPMIDs answer).length : ℚ) := by
        exact_mod_cast Nat.pos_of_ne_zero htne
      have h1 : (((citedPMIDs answer).filter
          (fun p => (sourcePMIDs documents).contains p)).length : ℚ) /
          ((citedPMIDs answer).length : ℚ) ≤ 1 :=
        div_le_one_of_le₀ (by exact_mod_cast hvt) (le_of_lt htpos)
      calc (((citedPMIDs answer).filter
            (fun p => (sourcePMIDs documents).contains p)).length : ℚ) /
            ((citedPMIDs answer).length : ℚ) * 100 ≤ 1 * 100 :=
            mul_le_mul_of_nonneg_right h1 (by norm_num)
        _ = 100 := by norm_num
    · norm_num

/-- Witness for C5 at a concrete answer with one extracted marker. -/
theorem citation_accuracy_formula_witness :
    scanPMIDs "Use PMID: 11111 now." ≠ []
    ∧ (verify_citations "Use PMID: 11111 now." [docHi]).citation_accuracy =
        ((verify_citations "Use PMID: 11111 now." [docHi]).valid_citations : ℚ) /
        ((verify_citations "Use PMID: 11111 now." [docHi]).total_citations : ℚ) * 100
    ∧ 0 ≤ (verify_citations "Use PMID: 11111 now." [docHi]).citation_accuracy :=
  ⟨by decide,
   (citation_accuracy_formula "Use PMID: 11111 now." [docHi]).1 (by decide),
   (citation_accuracy_formula "Use PMID: 11111 now." [docHi]).2.2.1⟩

/-- Counterexample to C9 as stated: an emergency-blocked query completes
(query returns a result) yet leaves the query counter, and hence
get_statistics, unchanged at 0 instead of incrementing it to 1. -/
theorem blocked_query_does_not_increment_counter :
    query cfgEx searchEx genOkEx { query_count := 0 } "overdose amounts" =
      Except.ok
        ({ question := "overdose amounts", answer := emergencyWarning,
           citations := [], sources := [], num_sources := none, cost := none,
           risk_level := some "critical", citation_accuracy := none,
           transparency_score := none, safe := some false },
         { query_count := 0 }, [])
    ∧ (get_statistics { query_count := 0 }).total_queries = 0 := ⟨rfl, rfl⟩

/-- C9 amended: the orchestrator-owned query counter is incremented exactly
once by a query that reaches the generation path (safe query with non-empty
retrieval) and is left unchanged by blocked and empty-retrieval queries, and
get_statistics reports total_queries equal to the counter; so total_queries
counts the fully generated queries since construction, not all completed
queries. -/
theorem query_counter_increments_only_on_generation (cfg : PipelineConfig)
    (search : String → Nat → List Document)
    (gen : String → Except String String) (st : PipelineState) (q : String)
    (r : QueryResult) (st' : PipelineState) (ev : List Event)
    (h : query cfg search gen st q = Except.ok (r, st', ev)) :
    st'.query_count =
      (if (check_query_safety q).safe = true ∧
          retrieve_documents cfg (search q cfg.top_k) ≠ [] then
        st.query_count + 1 else st.query_count)
    ∧ (get_statistics st').total_queries = st'.query_count := by
  refine ⟨?_, rfl⟩
  simp only [query] at h
  split at h
  case isTrue hs =>
    split at h
    · exact absurd h (by simp)
    · simp only [Except.ok.injEq, Prod.mk.injEq] at h
      rw [← h.2.1]
      simp [hs]
  case isFalse hs =>
    have hs' : (check_query_safety q).safe = true := by
      revert hs
      cases (check_query_safety q).safe <;> simp
    split at h
    case isTrue he =>
      simp only [Except.ok.injEq, Prod.mk.injEq] at h
      rw [← h.2.1]
      have hnil : retrieve_documents cfg (search q cfg.top_k) = [] := by
        simpa using he
      simp [hnil]
    case isFalse he =>
      simp only [Except.ok.injEq, Prod.mk.injEq] at h
      rw [← h.2.1]
      have hne : retrieve_documents cfg (search q cfg.top_k) ≠ [] := by
        intro hnil
        rw [hnil] at he
        simp at he
      simp [hs', hne]

/-- Witness for the amended C9 at a safe query with empty retrieval: the
counter stays at 0. -/
theorem query_counter_increments_only_on_generation_witness :
    (0 : Nat) =
      (if (check_query_safety "metformin mechanism").safe = true ∧
          retrieve_documents cfgEx (searchNone "metformin mechanism" cfgEx.top_k) ≠ [] then
        0 + 1 else 0)
    ∧ (get_statistics { query_count := 0 }).total_queries = 0 := by
  exact query_counter_increments_only_on_generation cfgEx searchNone genOkEx
    { query_count := 0 } "metformin mechanism"
    { question := "metformin mechanism", answer := noLiteratureMsg,
      citations := [], sources := [], num_sources := some 0, cost := some 0,
      risk_level := none, citation_accuracy := none,
      transparency_score := none, safe := none }
    { query_count := 0 } [Event.retrievalCall] rfl

/-- C1 evidence: on the blocked path, the empty-retrieval path and the
normal generation path alike, the dict returned by query is missing keys
the claimed complete QueryResult requires: the blocked result has no
num_sources, cost, citation_accuracy or transparency_score key, and the
empty-retrieval and generated results have no risk_level, safe,
citation_accuracy or transparency_score key, because the return at
ragpipeline.py line 198 makes the complete return at lines 225-237
unreachable. -/
theorem query_results_missing_fields :
    ((query cfgEx searchEx genOkEx { query_count := 0 } "overdose amounts").toOption.map
        (fun out => (out.1.citation_accuracy, out.1.transparency_score,
          out.1.num_sources, out.1.cost)) = some (none, none, none, none))
    ∧ ((query cfgEx searchNone genOkEx { query_count := 0 } "metformin mechanism").toOption.map
        (fun out => (out.1.risk_level, out.1.safe, out.1.citation_accuracy,
          out.1.transparency_score)) = some (none, none, none, none))
    ∧ ((query cfgEx searchEx genOkEx { query_count := 0 } "metformin mechanism").toOption.map
        (fun out => (out.1.risk_level, out.1.safe, out.1.citation_accuracy,
          out.1.transparency_score)) = some (none, none, none, none)) :=
  ⟨rfl, rfl, rfl⟩

end MedRAG
